import Mathlib

/-!
Shallow embedding of the session/relay core of the Primavera P6 MCP agent
(source file `p6_mcp_phase3_2.py`, with `p6_mcp.py` sharing all modelled
helpers verbatim).  Python dictionaries are modelled as insertion-ordered
association lists; the wall clock is modelled as a natural number of
microseconds; the three network call sites (first relay attempt, re-login,
second relay attempt) are modelled by an explicit environment supplying the
responses the network would return, and each modelled entry point also
reports how many upstream relay requests and login attempts it issued and
the final state of the session store and of its persisted snapshot file.
-/

namespace P6

/-! ## Python string helpers -/

/-- Split a character list at the first occurrence of a (non-empty)
separator: `some (before, after)` when the separator occurs, `none`
otherwise. -/
def splitFirst (hay needle : List Char) : Option (List Char × List Char) :=
  match hay with
  | [] => none
  | c :: rest =>
    if needle.isPrefixOf (c :: rest) then some ([], (c :: rest).drop needle.length)
    else match splitFirst rest needle with
      | some (pre, post) => some (c :: pre, post)
      | none => none

/-- Python `s.startswith(prefix)`. -/
def pyStartsWith (s pre : String) : Bool :=
  pre.data.isPrefixOf s.data

/-- Python `s.split(sep, 1)[-1]`: everything after the first occurrence of
`sep`, or `s` itself if `sep` does not occur. -/
def pySplitOnceAfter (s sep : String) : String :=
  match splitFirst s.data sep.data with
  | some (_, post) => ⟨post⟩
  | none => s

/-- Python `s.split(sep, 1)[0]`: everything before the first occurrence of
`sep`, or `s` itself if `sep` does not occur. -/
def pySplitOnceBefore (s sep : String) : String :=
  match splitFirst s.data sep.data with
  | some (pre, _) => ⟨pre⟩
  | none => s

/-- `(url.split("//", 1)[-1]).split("/", 1)[0]` — the host extraction used
both for `DEFAULT_ALLOWED_HOST` and for the allowlist check in
`_upstream_with_retry`. -/
def extractHost (url : String) : String :=
  pySplitOnceBefore (pySplitOnceAfter url "//") "/"

/-- Python `s.rstrip("/")`. -/
def rstripSlash (s : String) : String :=
  ⟨(s.data.reverse.dropWhile (fun c => c = '/')).reverse⟩

/-! ## Percent-encoding (`urllib.parse.urlencode` with `doseq=True`,
restricted to string-valued parameters, which is the only shape the
modelled claims exercise) -/

/-- Uppercase hexadecimal digit, as produced by `urllib.parse.quote`. -/
def hexDigitUpper (n : Nat) : Char :=
  if n < 10 then Char.ofNat (48 + n) else Char.ofNat (55 + n)

/-- UTF-8 encoding of a single character, byte by byte. -/
def utf8EncodeChar (c : Char) : List Nat :=
  let n := c.toNat
  if n < 0x80 then [n]
  else if n < 0x800 then
    [0xC0 + n / 64, 0x80 + n % 64]
  else if n < 0x10000 then
    [0xE0 + n / 4096, 0x80 + (n / 64) % 64, 0x80 + n % 64]
  else
    [0xF0 + n / 262144, 0x80 + (n / 4096) % 64, 0x80 + (n / 64) % 64, 0x80 + n % 64]

/-- The characters `urllib.parse.quote` never encodes (letters, digits,
`_`, `.`, `-`, `~`). -/
def isUrlAlwaysSafe (c : Char) : Bool :=
  (('A' ≤ c ∧ c ≤ 'Z') ∨ ('a' ≤ c ∧ c ≤ 'z') ∨ ('0' ≤ c ∧ c ≤ '9')
    ∨ c = '_' ∨ c = '.' ∨ c = '-' ∨ c = '~')

/-- `%XX` escape of one byte. -/
def pctEncodeByte (b : Nat) : List Char :=
  ['%', hexDigitUpper (b / 16), hexDigitUpper (b % 16)]

/-- `urllib.parse.quote_plus` with the empty safe set (the form `urlencode`
applies to every key and value): safe characters pass through, a space
becomes `+`, everything else is `%XX`-escaped byte-wise. -/
def quotePlus (s : String) : String :=
  ⟨s.data.flatMap (fun c =>
    if c = ' ' then ['+']
    else if isUrlAlwaysSafe c then [c]
    else (utf8EncodeChar c).flatMap pctEncodeByte)⟩

/-- `urllib.parse.urlencode(params, doseq=True)` over string-valued
parameters. -/
def urlencode (params : List (String × String)) : String :=
  String.intercalate "&" (params.map (fun kv => quotePlus kv.1 ++ "=" ++ quotePlus kv.2))

/-! ## Python dicts as insertion-ordered association lists -/

/-- `d.get(k)`. -/
def aget {α : Type} (d : List (String × α)) (k : String) : Option α :=
  match d with
  | [] => none
  | (k', v) :: rest => if k' = k then some v else aget rest k

/-- `d[k] = v`: an existing key keeps its position, a new key is appended
(CPython insertion-order semantics). -/
def aset {α : Type} (d : List (String × α)) (k : String) (v : α) : List (String × α) :=
  match d with
  | [] => [(k, v)]
  | (k', v') :: rest => if k' = k then (k, v) :: rest else (k', v') :: aset rest k v

/-- `d.update(e)`. -/
def aupdate {α : Type} (d e : List (String × α)) : List (String × α) :=
  e.foldl (fun acc kv => aset acc kv.1 kv.2) d

/-- `del d[k]` (removing the first, hence for a dict the only, binding). -/
def adel {α : Type} (d : List (String × α)) (k : String) : List (String × α) :=
  match d with
  | [] => []
  | (k', v') :: rest => if k' = k then rest else (k', v') :: adel rest k

/-! ## Python truthiness for optional strings -/

/-- Python truthiness of `Optional[str]`: `None` and `""` are falsy. -/
def truthyOpt (o : Option String) : Bool :=
  match o with
  | none => false
  | some s => s ≠ ""

/-- Python `a or b` on `Optional[str]` values. -/
def pyOr (a b : Option String) : Option String :=
  if truthyOpt a then a else b

/-- First option if present, the fallback otherwise (shared shape for the
dict-override lemmas). -/
def withDefault {α : Type} (o d : Option α) : Option α :=
  match o with
  | some v => some v
  | none => d

/-! ## Data model -/

/-- `SavedCreds` (pydantic model). -/
structure SavedCreds where
  username : String
  password : String
  database_name : String
deriving DecidableEq, Repr

/-- `Session` (pydantic model).  `created_at` is `time.time()` at creation;
we model the clock as a natural number of microseconds, which preserves
ordering and the millisecond truncation used by `_mk_session_id`. -/
structure Session where
  cookies : String
  auth_token : Option String := none
  created_at : Nat
  database_name : Option String := none
  creds : Option SavedCreds := none
deriving DecidableEq, Repr

/-- The environment-derived configuration the modelled core reads. -/
structure Config where
  base_url : String
  accept : String
  version : String
  allowed_host : String
  auto_session_enabled : Bool
  auto_session_strict_mode : Bool
deriving DecidableEq, Repr

/-- Default `P6_BASE_URL`. -/
def defaultBaseUrl : String := "https://ca1.p6.oraclecloud.com/metrolinx/p6ws/restapi"

/-- The configuration obtained with every environment variable unset:
`DEFAULT_ALLOWED_HOST = (P6_BASE_URL.split("//", 1)[-1]).split("/", 1)[0]`. -/
def defaultConfig : Config :=
  { base_url := defaultBaseUrl
    accept := "application/json"
    version := ""
    allowed_host := extractHost defaultBaseUrl
    auto_session_enabled := true
    auto_session_strict_mode := true }

/-- An HTTP response as the relay observes it (status and headers are all
the modelled observables consume). -/
structure Response where
  status_code : Nat
  headers : List (String × String) := []
deriving DecidableEq, Repr

/-- `fastapi.HTTPException`. -/
structure HTTPException where
  status_code : Nat
  detail : String
deriving DecidableEq, Repr

/-- The response `requests.post` returns to `_try_login`: status, response
headers, the cookie jar (as name/value pairs in iteration order), the body
text, and the parsed JSON object if `r.json()` succeeds on it. -/
structure LoginHttpResponse where
  status_code : Nat
  headers : List (String × String) := []
  cookies : List (String × String) := []
  text : String := ""
  jsonBody : Option (List (String × String)) := none
deriving DecidableEq, Repr

/-! ## Authenticator (`_extract_cookies`, `_try_login`) -/

/-- `_extract_cookies`: `"; ".join(f"{c.name}={c.value}")`. -/
def extract_cookies (resp : LoginHttpResponse) : String :=
  String.intercalate "; " (resp.cookies.map (fun c => c.1 ++ "=" ++ c.2))

/-- Token extraction inside `_try_login`: known headers first (under Python
`or`-truthiness), then — when the token is still falsy and the body is
JSON — the known JSON fields; a JSON parse failure leaves the header value
in place. -/
def loginAuthToken (resp : LoginHttpResponse) : Option String :=
  let auth_token := pyOr (aget resp.headers "AuthToken") (aget resp.headers "X-Auth-Token")
  if ¬ truthyOpt auth_token
      ∧ pyStartsWith ((aget resp.headers "content-type").getD "") "application/json" then
    match resp.jsonBody with
    | some data => pyOr (pyOr (aget data "AuthToken") (aget data "authToken")) (aget data "token")
    | none => auth_token
  else auth_token

/-- `_try_login`: raises `HTTPException(status, "Re-login failed: ...")` on
an upstream status ≥ 400, else returns the joined cookies and the extracted
(possibly absent) token. -/
def try_login (resp : LoginHttpResponse) : Except HTTPException (String × Option String) :=
  if resp.status_code ≥ 400 then
    .error ⟨resp.status_code, "Re-login failed: " ++ (String.mk (resp.text.data.take 500))⟩
  else
    .ok (extract_cookies resp, loginAuthToken resp)

/-! ## Session store (`SessionManager`) -/

/-- The manager's in-memory map together with the contents of the
persisted snapshot file (`SESSION_STORE_FILE`). -/
structure ManagerState where
  sessions : List (String × Session)
  snapshot : List (String × Session)
deriving DecidableEq, Repr

/-- `_save_to_disk`: rewrites the snapshot file with the full current
map. -/
def save_to_disk (st : ManagerState) : ManagerState :=
  { st with snapshot := st.sessions }

/-- `add_session`: insert-or-update, then persist. -/
def add_session (st : ManagerState) (session_id : String) (session : Session) : ManagerState :=
  save_to_disk { st with sessions := aset st.sessions session_id session }

/-- `remove_session`: delete if present, then persist; absent ids are
untouched. -/
def remove_session (st : ManagerState) (session_id : String) : ManagerState :=
  if (aget st.sessions session_id).isSome then
    save_to_disk { st with sessions := adel st.sessions session_id }
  else st

/-- `clear_all`: empty the map, then persist. -/
def clear_all (st : ManagerState) : ManagerState :=
  save_to_disk { st with sessions := [] }

/-- One comparison step of Python `max(items, key=lambda kv: kv[1].created_at)`:
the running best is replaced only on a strictly greater key. -/
def latestStep (best kv2 : String × Session) : String × Session :=
  if kv2.2.created_at > best.2.created_at then kv2 else best

/-- `get_latest_session_id`: Python `max(items, key=created_at)` — the scan
replaces the running best only on a strictly greater timestamp, so the
first entry attaining the maximum wins. -/
def get_latest_session_id (sessions : List (String × Session)) : Option String :=
  match sessions with
  | [] => none
  | kv :: rest => some (rest.foldl latestStep kv).1

/-- `get_latest_session`: the id from `get_latest_session_id` (under Python
truthiness) paired with its record. -/
def get_latest_session (sessions : List (String × Session)) : Option (String × Session) :=
  match get_latest_session_id sessions with
  | some sid =>
    if sid ≠ "" then (aget sessions sid).map (fun s => (sid, s)) else none
  | none => none

/-- `_mk_session_id() = str(int(time.time() * 1000))` with the clock in
microseconds: the identifier is the wall-clock millisecond count. -/
def mk_session_id (now_us : Nat) : String :=
  toString (now_us / 1000)

/-! ## Relay engine helpers -/

/-- `_build_target_url`: normalize the path to start with `/`, strip
trailing slashes from the base, and append `?` plus the encoded query only
when the (copied) parameter dict is non-empty; `None` and `{}` queries are
both falsy in the source. -/
def build_target_url (cfg : Config) (path : String) (query : Option (List (String × String))) : String :=
  let path := if pyStartsWith path "/" then path else "/" ++ path
  let base := rstripSlash cfg.base_url
  let params := match query with
    | some q => q
    | none => []
  if params ≠ [] then base ++ path ++ "?" ++ urlencode params else base ++ path

/-- `_default_headers`: `Accept` and `Cookie` always, `Version` only when
configured non-empty, `AuthToken` only when the session's token is truthy,
then the caller's extras merged in last via `dict.update`. -/
def default_headers (cfg : Config) (ses : Session) (extra : Option (List (String × String))) :
    List (String × String) :=
  let headers : List (String × String) := [("Accept", cfg.accept), ("Cookie", ses.cookies)]
  let headers := if cfg.version ≠ "" then aset headers "Version" cfg.version else headers
  let headers := if truthyOpt ses.auth_token then
      aset headers "AuthToken" (ses.auth_token.getD "")
    else headers
  match extra with
  | some e => aupdate headers e
  | none => headers

/-- `_get_session_id_or_latest`: explicit id first (Python truthiness, so
`""` counts as absent), else fail when auto-session is disabled, else the
latest id or a 401 whose detail depends on strict mode. -/
def get_session_id_or_latest (cfg : Config) (sessions : List (String × Session))
    (provided_session_id : Option String) : Except HTTPException String :=
  if truthyOpt provided_session_id then
    .ok (provided_session_id.getD "")
  else if ¬ cfg.auto_session_enabled then
    .error ⟨401, "session_id required (AUTO_SESSION_ENABLED is disabled)"⟩
  else
    match get_latest_session_id sessions with
    | some latest_sid =>
      if latest_sid ≠ "" then .ok latest_sid
      else if cfg.auto_session_strict_mode then
        .error ⟨401, "No active session found. Please login first via /login"⟩
      else .error ⟨401, "No sessions available"⟩
    | none =>
      if cfg.auto_session_strict_mode then
        .error ⟨401, "No active session found. Please login first via /login"⟩
      else .error ⟨401, "No sessions available"⟩

/-- `GET /session/active`, reduced to the `session_id` field it reports. -/
def session_active (sessions : List (String × Session)) : Except HTTPException String :=
  match get_latest_session sessions with
  | none => .error ⟨404, "No active sessions"⟩
  | some (sid, _) => .ok sid

/-! ## Relay engine (`_upstream_with_retry`) -/

/-- The retry pass drops caller values for
`("Cookie", "AuthToken", "Accept", "Version")` — the `k not in (...)`
test of the header rebuild. -/
def isSecurityHeaderKey (k : String) : Bool :=
  k = "Cookie" ∨ k = "AuthToken" ∨ k = "Accept" ∨ k = "Version"

/-- The network environment of one relay call: the response the upstream
would give the first relay attempt, the one it would give a second
attempt, and the response of the re-login `POST`. -/
structure UpstreamEnv where
  first : Response
  second : Response
  login : LoginHttpResponse
deriving DecidableEq, Repr

deriving instance DecidableEq for Except

/-- Everything observable about one `_upstream_with_retry` run: the value
returned (or the `HTTPException` raised), the relay requests dispatched in
order (url with headers), how many login attempts were made, and the final
manager state. -/
structure RetryOutcome where
  result : Except HTTPException Response
  dispatched : List (String × List (String × String))
  loginAttempts : Nat
  state : ManagerState
deriving DecidableEq, Repr

/-- `_upstream_with_retry`: session lookup, host allowlist check, first
attempt; on a non-401 return it; on 401 with saved creds re-login once —
on success mutate the session in memory (no persist), rebuild the headers
from the updated session with the caller extras minus the four
security-relevant keys, and return the second attempt's response whatever
it is; on login failure fall through to the original 401. -/
def upstream_with_retry (cfg : Config) (st : ManagerState) (env : UpstreamEnv)
    (ses_id : String) (url : String) (headers : List (String × String)) : RetryOutcome :=
  match aget st.sessions ses_id with
  | none =>
    ⟨.error ⟨401, "Invalid or expired session_id. Please login again."⟩, [], 0, st⟩
  | some ses =>
    let host := extractHost url
    if host ≠ cfg.allowed_host then
      ⟨.error ⟨400, "Host not allowed: " ++ host⟩, [], 0, st⟩
    else
      let r := env.first
      if r.status_code ≠ 401 then
        ⟨.ok r, [(url, headers)], 0, st⟩
      else
        match ses.creds with
        | none => ⟨.ok r, [(url, headers)], 0, st⟩
        | some _ =>
          match try_login env.login with
          | .error _ => ⟨.ok r, [(url, headers)], 1, st⟩
          | .ok (new_cookies, new_token) =>
            let ses' := { ses with cookies := new_cookies, auth_token := new_token }
            let headers' := default_headers cfg ses'
              (some (headers.filter (fun kv => ! isSecurityHeaderKey kv.1)))
            ⟨.ok env.second, [(url, headers), (url, headers')], 1,
              { st with sessions := aset st.sessions ses_id ses' }⟩

/-! ## Endpoints built on the relay -/

/-- `POST /call` request body (`CallRequest`); the method and body fields
are forwarded opaquely and do not affect any modelled observable, so they
are elided. -/
structure CallRequest where
  session_id : Option String := none
  path : String
  query : Option (List (String × String)) := none
  headers : Option (List (String × String)) := none
deriving Repr

/-- `POST /call`: resolve the session id, fetch the session, build the
target url and the merged headers, and run the relay. -/
def call_endpoint (cfg : Config) (st : ManagerState) (env : UpstreamEnv)
    (req : CallRequest) : RetryOutcome :=
  match get_session_id_or_latest cfg st.sessions req.session_id with
  | .error e => ⟨.error e, [], 0, st⟩
  | .ok ses_id =>
    match aget st.sessions ses_id with
    | none =>
      ⟨.error ⟨401, "Invalid or expired session_id. Please login again."⟩, [], 0, st⟩
    | some ses =>
      let url := build_target_url cfg req.path req.query
      let headers := default_headers cfg ses (some (req.headers.getD []))
      upstream_with_retry cfg st env ses_id url headers

/-- `POST /login` request body. -/
structure LoginRequest where
  username : String
  password : String
  databaseName : String
  remember : Bool := false
deriving Repr

/-- `POST /login`: authenticate, mint an id from the wall clock, store the
session (with creds only on `remember`), return the id. -/
def login_endpoint (st : ManagerState) (now_us : Nat) (req : LoginRequest)
    (loginResp : LoginHttpResponse) : Except HTTPException (String × ManagerState) :=
  match try_login loginResp with
  | .error e => .error e
  | .ok (cookies, auth_token) =>
    let ses_id := mk_session_id now_us
    let session : Session :=
      { cookies := cookies
        auth_token := auth_token
        created_at := now_us
        database_name := some req.databaseName
        creds := if req.remember then
            some ⟨req.username, req.password, req.databaseName⟩
          else none }
    .ok (ses_id, add_session st ses_id session)

/-! ## Lemmas about the dict model -/

theorem aget_aset_self {α : Type} (d : List (String × α)) (k : String) (v : α) :
    aget (aset d k v) k = some v := by
  induction d with
  | nil => simp [aget, aset]
  | cons kv rest ih =>
    obtain ⟨k', v'⟩ := kv
    by_cases h : k' = k
    · simp [aget, aset, h]
    · simp [aget, aset, h, ih]

theorem aget_aset_ne {α : Type} (d : List (String × α)) {k k' : String} (h : k ≠ k') (v : α) :
    aget (aset d k v) k' = aget d k' := by
  induction d with
  | nil => simp [aget, aset, h]
  | cons kv rest ih =>
    obtain ⟨k0, v0⟩ := kv
    by_cases h0 : k0 = k
    · subst h0
      simp [aget, aset, h]
    · simp [aget, aset, h0, ih]

theorem aget_eq_none_of_not_mem {α : Type} {d : List (String × α)} {k : String}
    (h : k ∉ d.map Prod.fst) : aget d k = none := by
  induction d with
  | nil => simp [aget]
  | cons kv rest ih =>
    simp only [List.map_cons, List.mem_cons] at h
    push_neg at h
    simp [aget, Ne.symm h.1, ih h.2]

theorem aget_isSome_of_mem {α : Type} {d : List (String × α)} {k : String} {v : α}
    (h : (k, v) ∈ d) : (aget d k).isSome := by
  induction d with
  | nil => simp at h
  | cons kv rest ih =>
    obtain ⟨k0, v0⟩ := kv
    rcases List.mem_cons.mp h with h1 | h2
    · cases h1
      simp [aget]
    · by_cases h0 : k0 = k
      · simp [aget, h0]
      · simp [aget, h0, ih h2]

theorem aget_aupdate {α : Type} (d e : List (String × α)) (k : String)
    (he : (e.map Prod.fst).Nodup) :
    aget (aupdate d e) k = withDefault (aget e k) (aget d k) := by
  induction e generalizing d with
  | nil => simp [aupdate, aget, withDefault]
  | cons kv rest ih =>
    obtain ⟨k0, v0⟩ := kv
    simp only [List.map_cons, List.nodup_cons] at he
    have hrest := ih (aset d k0 v0) he.2
    show aget (aupdate (aset d k0 v0) rest) k = _
    by_cases h0 : k0 = k
    · subst h0
      have hnone : aget rest k0 = none := aget_eq_none_of_not_mem he.1
      simp [aget, hrest, hnone, aget_aset_self, withDefault]
    · simp [aget, h0, hrest, aget_aset_ne d h0 v0]

theorem aget_filter_key {α : Type} (d : List (String × α)) (p : String → Bool) (k : String) :
    aget (d.filter (fun kv => p kv.1)) k = if p k then aget d k else none := by
  induction d with
  | nil => simp [aget]
  | cons kv rest ih =>
    obtain ⟨k0, v0⟩ := kv
    by_cases h0 : k0 = k
    · subst h0
      by_cases hp : p k0
      · simp [List.filter, hp, aget, ih]
      · simp [List.filter, hp, aget, ih]
    · by_cases hp : p k0
      · simp [List.filter, hp, aget, h0, ih]
      · simp [List.filter, hp, aget, h0, ih]

/-! ## Lemmas about `default_headers` -/

theorem default_headers_some (cfg : Config) (ses : Session) (e : List (String × String)) :
    default_headers cfg ses (some e) = aupdate (default_headers cfg ses none) e := rfl

theorem aget_default_headers_none_cookie (cfg : Config) (ses : Session) :
    aget (default_headers cfg ses none) "Cookie" = some ses.cookies := by
  unfold default_headers
  by_cases hv : cfg.version = "" <;> by_cases ht : truthyOpt ses.auth_token <;>
    simp [hv, ht, aget, aget_aset_ne, aget_aset_self]

theorem aget_default_headers_none_accept (cfg : Config) (ses : Session) :
    aget (default_headers cfg ses none) "Accept" = some cfg.accept := by
  unfold default_headers
  by_cases hv : cfg.version = "" <;> by_cases ht : truthyOpt ses.auth_token <;>
    simp [hv, ht, aget, aget_aset_ne, aget_aset_self]

theorem aget_default_headers_none_version (cfg : Config) (ses : Session) :
    aget (default_headers cfg ses none) "Version" =
      (if cfg.version ≠ "" then some cfg.version else none) := by
  unfold default_headers
  by_cases hv : cfg.version = "" <;> by_cases ht : truthyOpt ses.auth_token <;>
    simp [hv, ht, aget, aget_aset_ne, aget_aset_self]

theorem aget_default_headers_none_token (cfg : Config) (ses : Session) :
    aget (default_headers cfg ses none) "AuthToken" =
      (if truthyOpt ses.auth_token then some (ses.auth_token.getD "") else none) := by
  unfold default_headers
  by_cases hv : cfg.version = "" <;> by_cases ht : truthyOpt ses.auth_token <;>
    simp [hv, ht, aget, aget_aset_ne, aget_aset_self]

theorem aget_default_headers_none_other (cfg : Config) (ses : Session) {k : String}
    (h : isSecurityHeaderKey k = false) :
    aget (default_headers cfg ses none) k = none := by
  unfold isSecurityHeaderKey at h
  simp only [decide_eq_false_iff_not] at h
  push_neg at h
  obtain ⟨hc, ha, hac, hv⟩ := h
  unfold default_headers
  by_cases hv' : cfg.version = "" <;> by_cases ht : truthyOpt ses.auth_token <;>
    simp [hv', ht, aget, aget_aset_ne, Ne.symm hc, Ne.symm ha, Ne.symm hac, Ne.symm hv,
      fun v => aget_aset_ne _ (show "Version" ≠ k from Ne.symm hv) v,
      fun v => aget_aset_ne _ (show "AuthToken" ≠ k from Ne.symm ha) v]

/-! ## Lemmas about the latest-session scan -/

theorem foldl_latestStep_mem (kv : String × Session) (rest : List (String × Session)) :
    rest.foldl latestStep kv ∈ kv :: rest := by
  induction rest generalizing kv with
  | nil => simp
  | cons y t ih =>
    have h := ih (latestStep kv y)
    have hy : latestStep kv y = kv ∨ latestStep kv y = y := by
      unfold latestStep
      by_cases hc : y.2.created_at > kv.2.created_at <;> simp [hc]
    show t.foldl latestStep (latestStep kv y) ∈ kv :: y :: t
    rcases List.mem_cons.mp h with h1 | h2
    · rw [h1]
      rcases hy with h3 | h3 <;> simp [h3]
    · simp [h2]

theorem foldl_latestStep_max (kv : String × Session) (rest : List (String × Session)) :
    ∀ x ∈ kv :: rest, x.2.created_at ≤ (rest.foldl latestStep kv).2.created_at := by
  induction rest generalizing kv with
  | nil =>
    intro x hx
    simp at hx
    simp [hx]
  | cons y t ih =>
    intro x hx
    have hkv : kv.2.created_at ≤ (latestStep kv y).2.created_at := by
      unfold latestStep
      split <;> omega
    have hy : y.2.created_at ≤ (latestStep kv y).2.created_at := by
      unfold latestStep
      split <;> omega
    have hstep := ih (latestStep kv y)
    rcases List.mem_cons.mp hx with h1 | h2
    · calc x.2.created_at = kv.2.created_at := by rw [h1]
        _ ≤ (latestStep kv y).2.created_at := hkv
        _ ≤ ((y :: t).foldl latestStep kv).2.created_at :=
          hstep (latestStep kv y) (List.mem_cons_self _ _)
    · rcases List.mem_cons.mp h2 with h3 | h4
      · calc x.2.created_at = y.2.created_at := by rw [h3]
          _ ≤ (latestStep kv y).2.created_at := hy
          _ ≤ ((y :: t).foldl latestStep kv).2.created_at :=
            hstep (latestStep kv y) (List.mem_cons_self _ _)
      · exact hstep x (List.mem_cons_of_mem _ h4)

theorem foldl_latestStep_first (kv : String × Session) (rest : List (String × Session)) :
    (kv :: rest).find?
        (fun x => decide ((rest.foldl latestStep kv).2.created_at ≤ x.2.created_at)) =
      some (rest.foldl latestStep kv) := by
  induction rest generalizing kv with
  | nil => simp
  | cons y t ih =>
    have hih := ih (latestStep kv y)
    have hmax := foldl_latestStep_max (latestStep kv y) t
    show (kv :: y :: t).find?
        (fun x => decide ((t.foldl latestStep (latestStep kv y)).2.created_at ≤ x.2.created_at)) =
      some (t.foldl latestStep (latestStep kv y))
    by_cases hc : y.2.created_at > kv.2.created_at
    · have hstep : latestStep kv y = y := by unfold latestStep; simp [hc]
      have hyb : y.2.created_at ≤ (t.foldl latestStep (latestStep kv y)).2.created_at := by
        have := hmax (latestStep kv y) (List.mem_cons_self _ _)
        rw [hstep] at this ⊢
        exact this
      have hkvb : ¬ ((t.foldl latestStep (latestStep kv y)).2.created_at ≤ kv.2.created_at) := by
        omega
      rw [List.find?_cons_of_neg _ (by simpa using hkvb)]
      rw [hstep] at hih ⊢
      exact hih
    · have hstep : latestStep kv y = kv := by unfold latestStep; simp [hc]
      rw [hstep] at hih hmax ⊢
      by_cases hkvb : (t.foldl latestStep kv).2.created_at ≤ kv.2.created_at
      · have hfirst : (kv :: t).find?
            (fun x => decide ((t.foldl latestStep kv).2.created_at ≤ x.2.created_at)) = some kv :=
          List.find?_cons_of_pos _ (by simpa using hkvb)
        have hbkv : t.foldl latestStep kv = kv := by
          rw [hih] at hfirst
          exact (Option.some_inj.mp hfirst)
        rw [hbkv] at hkvb ⊢
        rw [List.find?_cons_of_pos _ (by simp)]
      · have hyless : ¬ ((t.foldl latestStep kv).2.created_at ≤ y.2.created_at) := by
          have hy : y.2.created_at ≤ kv.2.created_at := by omega
          omega
        rw [List.find?_cons_of_neg _ (by simpa using hkvb)]
        rw [List.find?_cons_of_neg _ (by simpa using hyless)]
        rw [List.find?_cons_of_neg _ (by simpa using hkvb)] at hih
        exact hih

/-! ## Branch lemmas for `upstream_with_retry` -/

theorem try_login_ok {resp : LoginHttpResponse} (h : resp.status_code < 400) :
    try_login resp = .ok (extract_cookies resp, loginAuthToken resp) := by
  unfold try_login
  rw [if_neg (by omega)]

theorem try_login_fail {resp : LoginHttpResponse} (h : resp.status_code ≥ 400) :
    try_login resp =
      .error ⟨resp.status_code, "Re-login failed: " ++ (String.mk (resp.text.data.take 500))⟩ := by
  unfold try_login
  rw [if_pos (by omega)]

theorem uwr_no_session {cfg : Config} {st : ManagerState} {env : UpstreamEnv}
    {ses_id url : String} {headers : List (String × String)}
    (hs : aget st.sessions ses_id = none) :
    upstream_with_retry cfg st env ses_id url headers =
      ⟨.error ⟨401, "Invalid or expired session_id. Please login again."⟩, [], 0, st⟩ := by
  unfold upstream_with_retry
  rw [hs]

theorem uwr_bad_host {cfg : Config} {st : ManagerState} {env : UpstreamEnv}
    {ses_id url : String} {headers : List (String × String)} {ses : Session}
    (hs : aget st.sessions ses_id = some ses)
    (hh : extractHost url ≠ cfg.allowed_host) :
    upstream_with_retry cfg st env ses_id url headers =
      ⟨.error ⟨400, "Host not allowed: " ++ extractHost url⟩, [], 0, st⟩ := by
  simp [upstream_with_retry, hs, hh]

theorem uwr_not_401 {cfg : Config} {st : ManagerState} {env : UpstreamEnv}
    {ses_id url : String} {headers : List (String × String)} {ses : Session}
    (hs : aget st.sessions ses_id = some ses)
    (hh : extractHost url = cfg.allowed_host)
    (hr : env.first.status_code ≠ 401) :
    upstream_with_retry cfg st env ses_id url headers =
      ⟨.ok env.first, [(url, headers)], 0, st⟩ := by
  simp [upstream_with_retry, hs, hh, hr]

theorem uwr_401_no_creds {cfg : Config} {st : ManagerState} {env : UpstreamEnv}
    {ses_id url : String} {headers : List (String × String)} {ses : Session}
    (hs : aget st.sessions ses_id = some ses)
    (hh : extractHost url = cfg.allowed_host)
    (hr : env.first.status_code = 401)
    (hc : ses.creds = none) :
    upstream_with_retry cfg st env ses_id url headers =
      ⟨.ok env.first, [(url, headers)], 0, st⟩ := by
  simp [upstream_with_retry, hs, hh, hr, hc]

theorem uwr_401_creds_login_fail {cfg : Config} {st : ManagerState} {env : UpstreamEnv}
    {ses_id url : String} {headers : List (String × String)} {ses : Session} {c : SavedCreds}
    (hs : aget st.sessions ses_id = some ses)
    (hh : extractHost url = cfg.allowed_host)
    (hr : env.first.status_code = 401)
    (hc : ses.creds = some c)
    (hl : env.login.status_code ≥ 400) :
    upstream_with_retry cfg st env ses_id url headers =
      ⟨.ok env.first, [(url, headers)], 1, st⟩ := by
  simp [upstream_with_retry, hs, hh, hr, hc, try_login_fail hl]

theorem uwr_401_creds_login_ok {cfg : Config} {st : ManagerState} {env : UpstreamEnv}
    {ses_id url : String} {headers : List (String × String)} {ses : Session} {c : SavedCreds}
    (hs : aget st.sessions ses_id = some ses)
    (hh : extractHost url = cfg.allowed_host)
    (hr : env.first.status_code = 401)
    (hc : ses.creds = some c)
    (hl : env.login.status_code < 400) :
    upstream_with_retry cfg st env ses_id url headers =
      ⟨.ok env.second,
        [(url, headers),
          (url, default_headers cfg
            ({ ses with cookies := extract_cookies env.login,
                        auth_token := loginAuthToken env.login })
            (some (headers.filter (fun kv => ! isSecurityHeaderKey kv.1))))],
        1,
        ⟨aset st.sessions ses_id
          ({ ses with cookies := extract_cookies env.login,
                      auth_token := loginAuthToken env.login }),
          st.snapshot⟩⟩ := by
  simp [upstream_with_retry, hs, hh, hr, hc, try_login_ok hl]

/-! ## Concrete fixtures for witnesses and counterexamples -/

/-- Remembered credentials of a sample session. -/
def sampleCreds : SavedCreds := ⟨"alice", "pw", "db1"⟩

/-- A session that remembered its credentials at login. -/
def sampleSession : Session := ⟨"JSESSIONID=abc", some "tok0", 1000, some "db1", some sampleCreds⟩

/-- The same session without remembered credentials. -/
def sampleSessionNoCreds : Session := ⟨"JSESSIONID=abc", some "tok0", 1000, some "db1", none⟩

/-- A store holding the credentialed sample session, snapshot in sync. -/
def sampleState : ManagerState := ⟨[("100", sampleSession)], [("100", sampleSession)]⟩

/-- A store holding the credential-less sample session, snapshot in sync. -/
def sampleStateNoCreds : ManagerState :=
  ⟨[("100", sampleSessionNoCreds)], [("100", sampleSessionNoCreds)]⟩

/-- A successful re-login response carrying a fresh token header. -/
def okLoginResp : LoginHttpResponse :=
  ⟨200, [("AuthToken", "tok1"), ("content-type", "application/json")], [("JSESSIONID", "new")], "", none⟩

/-- A failed re-login response. -/
def badLoginResp : LoginHttpResponse := ⟨500, [], [], "Internal Server Error", none⟩

/-- A successful re-login response with no token in any known header or
JSON field. -/
def noTokenLoginResp : LoginHttpResponse :=
  ⟨200, [("content-type", "application/json")], [("JSESSIONID", "new")], "", some [("status", "ok")]⟩

/-- An upstream that rejects every relay attempt with 401. -/
def resp401 : Response := ⟨401, []⟩

/-- Always-401 upstream with a working login endpoint. -/
def sampleEnv401 : UpstreamEnv := ⟨resp401, resp401, okLoginResp⟩

/-- Always-401 upstream whose login endpoint also fails. -/
def sampleEnv401Fail : UpstreamEnv := ⟨resp401, resp401, badLoginResp⟩

/-- Always-401 upstream whose login succeeds but yields no token. -/
def sampleEnv401NoToken : UpstreamEnv := ⟨resp401, resp401, noTokenLoginResp⟩

/-- A target on the allowed host. -/
def sampleUrl : String := build_target_url defaultConfig "/obs" none

/-! ## C1 -/

/-- C1: on a first-attempt 401, a session with remembered credentials
triggers exactly one re-authentication attempt, and — when that re-login
succeeds — exactly two upstream calls in total with the second response
returned whatever its status; without remembered credentials exactly one
upstream call is made and the 401 is returned immediately; no execution of
the relay ever dispatches a third upstream attempt. -/
theorem claim_c1_single_retry_bound
    (cfg : Config) (st : ManagerState) (env : UpstreamEnv)
    (ses_id url : String) (headers : List (String × String)) :
    (upstream_with_retry cfg st env ses_id url headers).dispatched.length ≤ 2 ∧
    (∀ ses, aget st.sessions ses_id = some ses →
      extractHost url = cfg.allowed_host →
      env.first.status_code = 401 →
      ((ses.creds.isSome = true →
          (upstream_with_retry cfg st env ses_id url headers).loginAttempts = 1) ∧
       (∀ c, ses.creds = some c → env.login.status_code < 400 →
          (upstream_with_retry cfg st env ses_id url headers).dispatched.length = 2 ∧
          (upstream_with_retry cfg st env ses_id url headers).result = .ok env.second) ∧
       (ses.creds = none →
          (upstream_with_retry cfg st env ses_id url headers).dispatched.length = 1 ∧
          (upstream_with_retry cfg st env ses_id url headers).loginAttempts = 0 ∧
          (upstream_with_retry cfg st env ses_id url headers).result = .ok env.first))) := by
  constructor
  · rcases hsq : aget st.sessions ses_id with _ | ses
    · rw [uwr_no_session hsq]
      simp
    · by_cases hh : extractHost url = cfg.allowed_host
      · by_cases hr : env.first.status_code = 401
        · rcases hcq : ses.creds with _ | c
          · rw [uwr_401_no_creds hsq hh hr hcq]
            simp
          · by_cases hl : env.login.status_code < 400
            · rw [uwr_401_creds_login_ok hsq hh hr hcq hl]
              simp
            · rw [uwr_401_creds_login_fail hsq hh hr hcq (by omega)]
              simp
        · rw [uwr_not_401 hsq hh hr]
          simp
      · rw [uwr_bad_host hsq hh]
        simp
  · intro ses hs hh hr
    refine ⟨?_, ?_, ?_⟩
    · intro hcs
      rcases hcq : ses.creds with _ | c
      · rw [hcq] at hcs
        simp at hcs
      · by_cases hl : env.login.status_code < 400
        · rw [uwr_401_creds_login_ok hs hh hr hcq hl]
        · rw [uwr_401_creds_login_fail hs hh hr hcq (by omega)]
    · intro c hc hl
      rw [uwr_401_creds_login_ok hs hh hr hc hl]
      exact ⟨rfl, rfl⟩
    · intro hc
      rw [uwr_401_no_creds hs hh hr hc]
      exact ⟨rfl, rfl, rfl⟩

/-- C1 witness: with the always-401 upstream trace and the credentialed
sample session, the relay makes exactly two upstream calls and returns the
second (still-401) response. -/
theorem claim_c1_witness :
    (upstream_with_retry defaultConfig sampleState sampleEnv401 "100" sampleUrl []).dispatched.length = 2 ∧
    (upstream_with_retry defaultConfig sampleState sampleEnv401 "100" sampleUrl []).result =
      .ok sampleEnv401.second :=
  (((claim_c1_single_retry_bound defaultConfig sampleState sampleEnv401 "100" sampleUrl []).2
      sampleSession (by decide) (by decide) (by decide)).2.1 sampleCreds (by decide) (by decide))

/-! ## Branch lemmas for `call_endpoint` -/

theorem call_endpoint_resolver_error {cfg : Config} {st : ManagerState} {env : UpstreamEnv}
    {req : CallRequest} {e : HTTPException}
    (h : get_session_id_or_latest cfg st.sessions req.session_id = .error e) :
    call_endpoint cfg st env req = ⟨.error e, [], 0, st⟩ := by
  simp [call_endpoint, h]

theorem call_endpoint_no_session {cfg : Config} {st : ManagerState} {env : UpstreamEnv}
    {req : CallRequest} {ses_id : String}
    (hr : get_session_id_or_latest cfg st.sessions req.session_id = .ok ses_id)
    (hs : aget st.sessions ses_id = none) :
    call_endpoint cfg st env req =
      ⟨.error ⟨401, "Invalid or expired session_id. Please login again."⟩, [], 0, st⟩ := by
  simp [call_endpoint, hr, hs]

theorem call_endpoint_run {cfg : Config} {st : ManagerState} {env : UpstreamEnv}
    {req : CallRequest} {ses_id : String} {ses : Session}
    (hr : get_session_id_or_latest cfg st.sessions req.session_id = .ok ses_id)
    (hs : aget st.sessions ses_id = some ses) :
    call_endpoint cfg st env req =
      upstream_with_retry cfg st env ses_id (build_target_url cfg req.path req.query)
        (default_headers cfg ses (some (req.headers.getD []))) := by
  simp [call_endpoint, hr, hs]

/-- Every relay request `upstream_with_retry` dispatches goes to a URL
whose extracted host is the configured allowed host. -/
theorem uwr_dispatched_host (cfg : Config) (st : ManagerState) (env : UpstreamEnv)
    (ses_id url : String) (headers : List (String × String)) :
    ∀ p ∈ (upstream_with_retry cfg st env ses_id url headers).dispatched,
      extractHost p.1 = cfg.allowed_host := by
  rcases hsq : aget st.sessions ses_id with _ | ses
  · rw [uwr_no_session hsq]
    simp
  · by_cases hh : extractHost url = cfg.allowed_host
    · by_cases hr : env.first.status_code = 401
      · rcases hcq : ses.creds with _ | c
        · rw [uwr_401_no_creds hsq hh hr hcq]
          simp [hh]
        · by_cases hl : env.login.status_code < 400
          · rw [uwr_401_creds_login_ok hsq hh hr hcq hl]
            intro p hp
            rcases List.mem_cons.mp hp with h1 | h2
            · rw [h1]
              exact hh
            · rcases List.mem_cons.mp h2 with h3 | h4
              · rw [h3]
                exact hh
              · simp at h4
          · rw [uwr_401_creds_login_fail hsq hh hr hcq (by omega)]
            simp [hh]
      · rw [uwr_not_401 hsq hh hr]
        simp [hh]
    · rw [uwr_bad_host hsq hh]
      simp

/-! ## C2 -/

/-- C2: a relay call never dispatches an upstream request to a host other
than the configured allowed host, whatever the caller supplies as path and
query; and whenever the session resolves but the constructed target's host
differs from the allowed host, the call is rejected with a 400 before any
upstream request is issued. -/
theorem claim_c2_host_allowlist (cfg : Config) (st : ManagerState) (env : UpstreamEnv)
    (req : CallRequest) :
    (∀ p ∈ (call_endpoint cfg st env req).dispatched, extractHost p.1 = cfg.allowed_host) ∧
    (∀ ses_id ses,
      get_session_id_or_latest cfg st.sessions req.session_id = .ok ses_id →
      aget st.sessions ses_id = some ses →
      extractHost (build_target_url cfg req.path req.query) ≠ cfg.allowed_host →
      (call_endpoint cfg st env req).result =
        .error ⟨400, "Host not allowed: " ++ extractHost (build_target_url cfg req.path req.query)⟩ ∧
      (call_endpoint cfg st env req).dispatched = []) := by
  constructor
  · rcases hrq : get_session_id_or_latest cfg st.sessions req.session_id with e | ses_id
    · rw [call_endpoint_resolver_error hrq]
      simp
    · rcases hsq : aget st.sessions ses_id with _ | ses
      · rw [call_endpoint_no_session hrq hsq]
        simp
      · rw [call_endpoint_run hrq hsq]
        exact uwr_dispatched_host cfg st env ses_id _ _
  · intro ses_id ses hr hs hh
    rw [call_endpoint_run hr hs, uwr_bad_host hs hh]
    exact ⟨rfl, rfl⟩

/-- A configuration whose `ALLOWED_HOST` override differs from the base
URL's own host, so every constructed target is off-allowlist. -/
def overrideHostConfig : Config := { defaultConfig with allowed_host := "other.example.com" }

/-- C2 witness: under the host-override configuration a fully resolved
call is rejected with a 400 naming the target's host, and nothing is
dispatched. -/
theorem claim_c2_witness :
    (call_endpoint overrideHostConfig sampleState sampleEnv401
        ⟨some "100", "/obs", none, none⟩).result =
      .error ⟨400, "Host not allowed: " ++
        extractHost (build_target_url overrideHostConfig "/obs" none)⟩ ∧
    (call_endpoint overrideHostConfig sampleState sampleEnv401
        ⟨some "100", "/obs", none, none⟩).dispatched = [] :=
  ((claim_c2_host_allowlist overrideHostConfig sampleState sampleEnv401
      ⟨some "100", "/obs", none, none⟩).2 "100" sampleSession
    (by decide) (by decide) (by decide))

/-! ## C3 -/

/-- C3: the code violates the claim — two session-creating logins inside
the same wall-clock millisecond (here at 1000µs and 1999µs, both in
millisecond 1) mint the identical identifier `"1"`, and the second
creation overwrites the first: afterwards the store holds a single
session, the second one. -/
theorem claim_c3_code_bug :
    mk_session_id 1000 = mk_session_id 1999 ∧
    login_endpoint ⟨[], []⟩ 1000 ⟨"alice", "pw", "db1", false⟩ okLoginResp =
      .ok ("1", ⟨[("1", ⟨"JSESSIONID=new", some "tok1", 1000, some "db1", none⟩)],
                 [("1", ⟨"JSESSIONID=new", some "tok1", 1000, some "db1", none⟩)]⟩) ∧
    login_endpoint
        ⟨[("1", ⟨"JSESSIONID=new", some "tok1", 1000, some "db1", none⟩)],
         [("1", ⟨"JSESSIONID=new", some "tok1", 1000, some "db1", none⟩)]⟩
        1999 ⟨"bob", "pw2", "db2", false⟩ okLoginResp =
      .ok ("1", ⟨[("1", ⟨"JSESSIONID=new", some "tok1", 1999, some "db2", none⟩)],
                 [("1", ⟨"JSESSIONID=new", some "tok1", 1999, some "db2", none⟩)]⟩) := by
  decide

/-! ## C4 -/

/-- A session created at tick 5000, first inserted. -/
def tieSessionA : Session := ⟨"cA", none, 5000, none, none⟩

/-- A distinct session sharing the same creation timestamp, inserted
second. -/
def tieSessionB : Session := ⟨"cB", none, 5000, none, none⟩

/-- C4 counterexample: with two sessions sharing the maximal creation
timestamp, `get_latest_session_id` returns the FIRST-inserted id `"7"`,
not the last-inserted `"8"` the claim predicts. -/
theorem claim_c4_counterexample :
    get_latest_session_id [("7", tieSessionA), ("8", tieSessionB)] = some "7" ∧
    tieSessionA.created_at = tieSessionB.created_at ∧
    ("7" : String) ≠ "8" := by
  decide

/-- C4 (amended): on an empty store `getLatest` is empty; on a non-empty
store it returns a session of maximal creation timestamp, and among the
entries attaining that maximum the FIRST in insertion order wins (Python's
`max` keeps the earliest maximal element). -/
theorem claim_c4_latest_session (sessions : List (String × Session)) :
    (sessions = [] → get_latest_session_id sessions = none) ∧
    (sessions ≠ [] → ∃ k s, get_latest_session_id sessions = some k ∧
      (k, s) ∈ sessions ∧
      (∀ kv ∈ sessions, kv.2.created_at ≤ s.created_at) ∧
      sessions.find? (fun kv => decide (s.created_at ≤ kv.2.created_at)) = some (k, s)) := by
  constructor
  · intro h
    rw [h]
    rfl
  · intro h
    match sessions with
    | [] => exact absurd rfl h
    | kv :: rest =>
      refine ⟨(rest.foldl latestStep kv).1, (rest.foldl latestStep kv).2, rfl, ?_, ?_, ?_⟩
      · rw [Prod.mk.eta]
        exact foldl_latestStep_mem kv rest
      · exact foldl_latestStep_max kv rest
      · rw [Prod.mk.eta]
        exact foldl_latestStep_first kv rest

/-- C4 witness: the amended statement instantiated on the concrete
tied store. -/
theorem claim_c4_witness :
    ∃ k s, get_latest_session_id [("7", tieSessionA), ("8", tieSessionB)] = some k ∧
      (k, s) ∈ [("7", tieSessionA), ("8", tieSessionB)] ∧
      (∀ kv ∈ [("7", tieSessionA), ("8", tieSessionB)], kv.2.created_at ≤ s.created_at) ∧
      [("7", tieSessionA), ("8", tieSessionB)].find?
          (fun kv => decide (s.created_at ≤ kv.2.created_at)) = some (k, s) :=
  (claim_c4_latest_session [("7", tieSessionA), ("8", tieSessionB)]).2 (by decide)

/-! ## C5 -/

/-- C5 counterexample: starting from a store whose snapshot matches it,
one relay call that re-authenticates successfully leaves the in-memory
store different from the snapshot file — the cookie/token update is never
persisted. -/
theorem claim_c5_counterexample :
    sampleState.snapshot = sampleState.sessions ∧
    (upstream_with_retry defaultConfig sampleState sampleEnv401 "100" sampleUrl []).state.sessions ≠
      (upstream_with_retry defaultConfig sampleState sampleEnv401 "100" sampleUrl []).state.snapshot := by
  decide

/-- C5 (amended): session creation, deletion of an existing session, and
delete-all all re-establish "snapshot = in-memory store", but the
re-authentication path updates the session only in memory and never
writes the snapshot, which is left exactly as it was. -/
theorem claim_c5_persistence (st : ManagerState) :
    (∀ sid ses, (add_session st sid ses).snapshot = (add_session st sid ses).sessions) ∧
    (∀ sid, (aget st.sessions sid).isSome →
      (remove_session st sid).snapshot = (remove_session st sid).sessions) ∧
    ((clear_all st).snapshot = (clear_all st).sessions) ∧
    (∀ cfg env ses_id url headers,
      (upstream_with_retry cfg st env ses_id url headers).state.snapshot = st.snapshot) := by
  refine ⟨fun sid ses => rfl, ?_, rfl, ?_⟩
  · intro sid hsid
    unfold remove_session
    rw [if_pos hsid]
    rfl
  · intro cfg env ses_id url headers
    rcases hsq : aget st.sessions ses_id with _ | ses
    · rw [uwr_no_session hsq]
    · by_cases hh : extractHost url = cfg.allowed_host
      · by_cases hr : env.first.status_code = 401
        · rcases hcq : ses.creds with _ | c
          · rw [uwr_401_no_creds hsq hh hr hcq]
          · by_cases hl : env.login.status_code < 400
            · rw [uwr_401_creds_login_ok hsq hh hr hcq hl]
            · rw [uwr_401_creds_login_fail hsq hh hr hcq (by omega)]
        · rw [uwr_not_401 hsq hh hr]
      · rw [uwr_bad_host hsq hh]

/-- C5 witness: the amended statement instantiated on the concrete sample
store, deleting the session that is present. -/
theorem claim_c5_witness :
    (remove_session sampleState "100").snapshot = (remove_session sampleState "100").sessions :=
  (claim_c5_persistence sampleState).2.1 "100" (by decide)

/-! ## C6 -/

/-- C6: an explicitly supplied (non-empty) session id is returned
unchecked; with no id and auto-session disabled the call fails with the
401 "session_id required" error and dispatches nothing upstream; with
auto-session enabled it resolves to the same id `GET /session/active`
reports, or fails with a 401 when no session exists. -/
theorem claim_c6_session_resolution (cfg : Config) (st : ManagerState) (env : UpstreamEnv) :
    (∀ s, s ≠ "" → get_session_id_or_latest cfg st.sessions (some s) = .ok s) ∧
    (cfg.auto_session_enabled = false →
      ∀ req : CallRequest, req.session_id = none →
        call_endpoint cfg st env req =
          ⟨.error ⟨401, "session_id required (AUTO_SESSION_ENABLED is disabled)"⟩, [], 0, st⟩) ∧
    (cfg.auto_session_enabled = true → st.sessions ≠ [] →
      (∀ kv ∈ st.sessions, kv.1 ≠ "") →
      ∃ sid, get_session_id_or_latest cfg st.sessions none = .ok sid ∧
        session_active st.sessions = .ok sid) ∧
    (cfg.auto_session_enabled = true → st.sessions = [] →
      ∃ e, get_session_id_or_latest cfg st.sessions none = .error e ∧ e.status_code = 401) := by
  refine ⟨?_, ?_, ?_, ?_⟩
  · intro s hs
    simp [get_session_id_or_latest, truthyOpt, hs]
  · intro hauto req hreq
    have hres : get_session_id_or_latest cfg st.sessions req.session_id =
        .error ⟨401, "session_id required (AUTO_SESSION_ENABLED is disabled)"⟩ := by
      rw [hreq]
      simp [get_session_id_or_latest, truthyOpt, hauto]
    exact call_endpoint_resolver_error hres
  · intro hauto hne hkeys
    match hsq : st.sessions with
    | [] => exact absurd hsq hne
    | kv :: rest =>
      have hmem : ((rest.foldl latestStep kv).1, (rest.foldl latestStep kv).2) ∈ kv :: rest := by
        rw [Prod.mk.eta]
        exact foldl_latestStep_mem kv rest
      have hkey : (rest.foldl latestStep kv).1 ≠ "" := by
        refine hkeys (rest.foldl latestStep kv) ?_
        rw [hsq]
        exact foldl_latestStep_mem kv rest
      obtain ⟨v, hv⟩ := Option.isSome_iff_exists.mp (aget_isSome_of_mem hmem)
      refine ⟨(rest.foldl latestStep kv).1, ?_, ?_⟩
      · simp [get_session_id_or_latest, truthyOpt, hauto, get_latest_session_id, hkey]
      · simp [session_active, get_latest_session, get_latest_session_id, hkey, hv]
  · intro hauto hempty
    have hlatest : get_latest_session_id st.sessions = none := by
      rw [hempty]
      rfl
    by_cases hstrict : cfg.auto_session_strict_mode
    · exact ⟨⟨401, "No active session found. Please login first via /login"⟩,
        by simp [get_session_id_or_latest, truthyOpt, hauto, hlatest, hstrict], rfl⟩
    · exact ⟨⟨401, "No sessions available"⟩,
        by simp [get_session_id_or_latest, truthyOpt, hauto, hlatest, hstrict], rfl⟩

/-- C6 witness: explicit-id passthrough and agreement between
auto-resolution and `GET /session/active` on the sample store. -/
theorem claim_c6_witness :
    get_session_id_or_latest defaultConfig sampleState.sessions (some "xyz") = .ok "xyz" ∧
    (∃ sid, get_session_id_or_latest defaultConfig sampleState.sessions none = .ok sid ∧
      session_active sampleState.sessions = .ok sid) :=
  ⟨(claim_c6_session_resolution defaultConfig sampleState sampleEnv401).1 "xyz" (by decide),
   (claim_c6_session_resolution defaultConfig sampleState sampleEnv401).2.2.1
     (by decide) (by decide) (by decide)⟩

/-! ## C7 -/

/-- C7: when the first attempt is a 401, the session has remembered
credentials, and the re-login fails with an error status, the relay
returns the original 401 untouched, performs no second upstream call, and
leaves the manager state — in particular the session's cookie and token
fields — exactly as before the retry cycle. -/
theorem claim_c7_reauth_failure (cfg : Config) (st : ManagerState) (env : UpstreamEnv)
    (ses_id url : String) (headers : List (String × String)) (ses : Session) (c : SavedCreds)
    (hs : aget st.sessions ses_id = some ses)
    (hc : ses.creds = some c)
    (hh : extractHost url = cfg.allowed_host)
    (hr : env.first.status_code = 401)
    (hl : env.login.status_code ≥ 400) :
    (upstream_with_retry cfg st env ses_id url headers).result = .ok env.first ∧
    (upstream_with_retry cfg st env ses_id url headers).state = st ∧
    aget (upstream_with_retry cfg st env ses_id url headers).state.sessions ses_id = some ses ∧
    (upstream_with_retry cfg st env ses_id url headers).dispatched.length = 1 := by
  rw [uwr_401_creds_login_fail hs hh hr hc hl]
  exact ⟨rfl, rfl, hs, rfl⟩

/-- C7 witness: the failing-login environment applied to the credentialed
sample session. -/
theorem claim_c7_witness :
    (upstream_with_retry defaultConfig sampleState sampleEnv401Fail "100" sampleUrl []).result =
      .ok sampleEnv401Fail.first ∧
    (upstream_with_retry defaultConfig sampleState sampleEnv401Fail "100" sampleUrl []).state =
      sampleState ∧
    aget (upstream_with_retry defaultConfig sampleState sampleEnv401Fail "100" sampleUrl
        []).state.sessions "100" = some sampleSession ∧
    (upstream_with_retry defaultConfig sampleState sampleEnv401Fail "100" sampleUrl
        []).dispatched.length = 1 :=
  claim_c7_reauth_failure defaultConfig sampleState sampleEnv401Fail "100" sampleUrl []
    sampleSession sampleCreds (by decide) (by decide) (by decide) (by decide) (by decide)

/-! ## C8 -/

theorem nodup_filter_keys {α : Type} {d : List (String × α)} (hnd : (d.map Prod.fst).Nodup)
    (p : (String × α) → Bool) : ((d.filter p).map Prod.fst).Nodup :=
  List.Nodup.sublist (List.Sublist.map Prod.fst (List.filter_sublist d)) hnd

theorem aget_default_headers_extra (cfg : Config) (ses : Session)
    (e : List (String × String)) (k : String) (hnd : (e.map Prod.fst).Nodup) :
    aget (default_headers cfg ses (some e)) k =
      withDefault (aget e k) (aget (default_headers cfg ses none) k) := by
  rw [default_headers_some]
  exact aget_aupdate (default_headers cfg ses none) e k hnd

/-- The headers rebuilt for the retry pass: security-relevant keys always
come from the regenerated defaults; every other key keeps the value it had
in the first attempt's header dict. -/
theorem aget_retry_headers (cfg : Config) (ses : Session)
    (headers : List (String × String)) (k : String)
    (hnd : (headers.map Prod.fst).Nodup) :
    aget (default_headers cfg ses
        (some (headers.filter (fun kv => ! isSecurityHeaderKey kv.1)))) k =
      if isSecurityHeaderKey k then aget (default_headers cfg ses none) k
      else withDefault (aget headers k) (aget (default_headers cfg ses none) k) := by
  rw [aget_default_headers_extra cfg ses _ k (nodup_filter_keys hnd _)]
  rw [aget_filter_key headers (fun x => ! isSecurityHeaderKey x) k]
  by_cases hk : isSecurityHeaderKey k
  · simp [hk, withDefault]
  · simp [hk]

/-- C8: on the automatic retry pass the `Cookie`, `AuthToken`, `Accept`
and `Version` headers are regenerated from the updated session and the
configuration — caller-supplied values for those four keys are dropped —
while every other header of the original request survives unchanged. -/
theorem claim_c8_retry_headers (cfg : Config) (st : ManagerState) (env : UpstreamEnv)
    (ses_id url : String) (headers : List (String × String)) (ses : Session) (c : SavedCreds)
    (hs : aget st.sessions ses_id = some ses)
    (hc : ses.creds = some c)
    (hh : extractHost url = cfg.allowed_host)
    (hr : env.first.status_code = 401)
    (hl : env.login.status_code < 400)
    (hnd : (headers.map Prod.fst).Nodup) :
    ∃ h2, (upstream_with_retry cfg st env ses_id url headers).dispatched =
        [(url, headers), (url, h2)] ∧
      aget h2 "Cookie" = some (extract_cookies env.login) ∧
      aget h2 "Accept" = some cfg.accept ∧
      aget h2 "Version" = (if cfg.version ≠ "" then some cfg.version else none) ∧
      aget h2 "AuthToken" = (if truthyOpt (loginAuthToken env.login) then
          some ((loginAuthToken env.login).getD "") else none) ∧
      (∀ k, isSecurityHeaderKey k = false → aget h2 k = aget headers k) := by
  rw [uwr_401_creds_login_ok hs hh hr hc hl]
  refine ⟨_, rfl, ?_, ?_, ?_, ?_, ?_⟩
  · rw [aget_retry_headers cfg _ headers _ hnd]
    rw [if_pos (by decide)]
    exact aget_default_headers_none_cookie cfg _
  · rw [aget_retry_headers cfg _ headers _ hnd]
    rw [if_pos (by decide)]
    exact aget_default_headers_none_accept cfg _
  · rw [aget_retry_headers cfg _ headers _ hnd]
    rw [if_pos (by decide)]
    exact aget_default_headers_none_version cfg _
  · rw [aget_retry_headers cfg _ headers _ hnd]
    rw [if_pos (by decide)]
    exact aget_default_headers_none_token cfg _
  · intro k hk
    rw [aget_retry_headers cfg _ headers _ hnd]
    rw [if_neg (by simp [hk])]
    have hbase := aget_default_headers_none_other cfg
      { ses with cookies := extract_cookies env.login, auth_token := loginAuthToken env.login } hk
    cases hq : aget headers k
    · simp [hq, hbase, withDefault]
    · simp [hq, withDefault]

/-- C8 witness: a caller supplying an `Accept` override and an extra
header sees the override dropped and the extra header preserved on the
retry. -/
theorem claim_c8_witness :
    ∃ h2, (upstream_with_retry defaultConfig sampleState sampleEnv401 "100" sampleUrl
        [("Accept", "text/plain"), ("X-Req", "1")]).dispatched =
        [(sampleUrl, [("Accept", "text/plain"), ("X-Req", "1")]), (sampleUrl, h2)] ∧
      aget h2 "Cookie" = some (extract_cookies sampleEnv401.login) ∧
      aget h2 "Accept" = some defaultConfig.accept ∧
      aget h2 "Version" = (if defaultConfig.version ≠ "" then some defaultConfig.version else none) ∧
      aget h2 "AuthToken" = (if truthyOpt (loginAuthToken sampleEnv401.login) then
          some ((loginAuthToken sampleEnv401.login).getD "") else none) ∧
      (∀ k, isSecurityHeaderKey k = false →
        aget h2 k = aget [("Accept", "text/plain"), ("X-Req", "1")] k) :=
  claim_c8_retry_headers defaultConfig sampleState sampleEnv401 "100" sampleUrl
    [("Accept", "text/plain"), ("X-Req", "1")] sampleSession sampleCreds
    (by decide) (by decide) (by decide) (by decide) (by decide) (by decide)

/-! ## C9 -/

theorem mem_rstripSlash {c : Char} {s : String} (h : c ∈ (rstripSlash s).data) :
    c ∈ s.data := by
  unfold rstripSlash at h
  rw [show (⟨(s.data.reverse.dropWhile (fun c => c = '/')).reverse⟩ : String).data =
      (s.data.reverse.dropWhile (fun c => c = '/')).reverse from rfl] at h
  rw [List.mem_reverse] at h
  exact List.mem_reverse.mp ((List.dropWhile_sublist _).subset h)

theorem data_append (s t : String) : (s ++ t).data = s.data ++ t.data := rfl

/-- C9 counterexample: a path that itself contains `?` yields, with no
query parameters supplied, a URL that does contain `?` — refuting the
claim's "the URL contains no `?` at all" for every path string. -/
theorem claim_c9_counterexample :
    ('?' ∈ (build_target_url defaultConfig "a?b" none).data) := by
  decide

/-- C9 (amended): the constructed URL is the trailing-slash-stripped base
followed by the path with a leading `/` prepended when absent; with no
query parameters nothing further is appended, so the URL contains `?` only
if the base or the path already contains one; with non-empty query
parameters the URL is that same prefix followed by `?` and the
percent-encoded pairs (the sample `Filter` value is encoded as
`Name%3D%27X%27`). -/
theorem claim_c9_url_construction :
    (∀ (cfg : Config) (path : String), pyStartsWith path "/" = false →
      build_target_url cfg path none = rstripSlash cfg.base_url ++ ("/" ++ path)) ∧
    (∀ (cfg : Config) (path : String), pyStartsWith path "/" = true →
      build_target_url cfg path none = rstripSlash cfg.base_url ++ path) ∧
    (∀ (cfg : Config) (path : String), '?' ∉ cfg.base_url.data → '?' ∉ path.data →
      '?' ∉ (build_target_url cfg path none).data) ∧
    (∀ (cfg : Config) (path : String) (q : List (String × String)), q ≠ [] →
      build_target_url cfg path (some q) =
        build_target_url cfg path none ++ "?" ++ urlencode q) ∧
    build_target_url defaultConfig "projects/123" none = defaultBaseUrl ++ "/projects/123" ∧
    build_target_url defaultConfig "/obs" (some [("Filter", "Name='X'")]) =
      defaultBaseUrl ++ "/obs?Filter=Name%3D%27X%27" := by
  refine ⟨?_, ?_, ?_, ?_, by decide, by decide⟩
  · intro cfg path h
    simp [build_target_url, h]
  · intro cfg path h
    simp [build_target_url, h]
  · intro cfg path hb hp
    have hbase : '?' ∉ (rstripSlash cfg.base_url).data :=
      fun hm => hb (mem_rstripSlash hm)
    by_cases h : pyStartsWith path "/"
    · rw [show build_target_url cfg path none = rstripSlash cfg.base_url ++ path by
        simp [build_target_url, h]]
      rw [data_append]
      intro hm
      rcases List.mem_append.mp hm with h1 | h2
      · exact hbase h1
      · exact hp h2
    · rw [show build_target_url cfg path none = rstripSlash cfg.base_url ++ ("/" ++ path) by
        simp [build_target_url, h]]
      rw [data_append, data_append]
      intro hm
      rcases List.mem_append.mp hm with h1 | h2
      · exact hbase h1
      · rcases List.mem_append.mp h2 with h3 | h4
        · simp at h3
        · exact hp h4
  · intro cfg path q hq
    by_cases h : pyStartsWith path "/" <;> simp [build_target_url, h, hq]

/-- C9 witness: the amended statement instantiated on the spec's own
examples. -/
theorem claim_c9_witness :
    build_target_url defaultConfig "projects/123" none =
      rstripSlash defaultConfig.base_url ++ ("/" ++ "projects/123") ∧
    '?' ∉ (build_target_url defaultConfig "projects/123" none).data ∧
    build_target_url defaultConfig "/obs" (some [("Filter", "Name='X'")]) =
      build_target_url defaultConfig "/obs" none ++ "?" ++ urlencode [("Filter", "Name='X'")] :=
  ⟨claim_c9_url_construction.1 defaultConfig "projects/123" (by decide),
   claim_c9_url_construction.2.2.1 defaultConfig "projects/123" (by decide) (by decide),
   claim_c9_url_construction.2.2.2.1 defaultConfig "/obs" [("Filter", "Name='X'")] (by decide)⟩

/-! ## C10 -/

/-- C10: after a successful re-login whose response carries no token in
the known headers or JSON fields, the session's token is cleared to none
(the cookie replaced wholesale), the retried request carries no
`AuthToken` header at all, and later header-building for that session
omits `AuthToken` whenever the caller supplies none themselves. -/
theorem claim_c10_token_cleared (cfg : Config) (st : ManagerState) (env : UpstreamEnv)
    (ses_id url : String) (headers : List (String × String)) (ses : Session) (c : SavedCreds)
    (hs : aget st.sessions ses_id = some ses)
    (hc : ses.creds = some c)
    (hh : extractHost url = cfg.allowed_host)
    (hr : env.first.status_code = 401)
    (hl : env.login.status_code < 400)
    (hnd : (headers.map Prod.fst).Nodup)
    (ht1 : aget env.login.headers "AuthToken" = none)
    (ht2 : aget env.login.headers "X-Auth-Token" = none)
    (hb : ∀ data, env.login.jsonBody = some data →
      aget data "AuthToken" = none ∧ aget data "authToken" = none ∧ aget data "token" = none) :
    loginAuthToken env.login = none ∧
    aget (upstream_with_retry cfg st env ses_id url headers).state.sessions ses_id =
      some { ses with cookies := extract_cookies env.login, auth_token := none } ∧
    (∃ h2, (upstream_with_retry cfg st env ses_id url headers).dispatched =
        [(url, headers), (url, h2)] ∧ aget h2 "AuthToken" = none) ∧
    (∀ extra, (extra.map Prod.fst).Nodup → aget extra "AuthToken" = none →
      aget (default_headers cfg
        { ses with cookies := extract_cookies env.login, auth_token := none }
        (some extra)) "AuthToken" = none) := by
  have htok : loginAuthToken env.login = none := by
    unfold loginAuthToken
    rw [ht1, ht2]
    rcases hjb : env.login.jsonBody with _ | data
    · by_cases hj : pyStartsWith ((aget env.login.headers "content-type").getD "")
          "application/json" <;>
        simp [pyOr, truthyOpt, hj]
    · obtain ⟨h1, h2, h3⟩ := hb data hjb
      by_cases hj : pyStartsWith ((aget env.login.headers "content-type").getD "")
          "application/json" <;>
        simp [pyOr, truthyOpt, hj, h1, h2, h3]
  refine ⟨htok, ?_, ?_, ?_⟩
  · rw [uwr_401_creds_login_ok hs hh hr hc hl]
    show aget (aset st.sessions ses_id _) ses_id = _
    rw [aget_aset_self, htok]
  · rw [uwr_401_creds_login_ok hs hh hr hc hl]
    refine ⟨_, rfl, ?_⟩
    rw [aget_retry_headers cfg _ headers _ hnd]
    rw [if_pos (by decide)]
    rw [aget_default_headers_none_token]
    simp [htok, truthyOpt]
  · intro extra hxnd hxnone
    rw [aget_default_headers_extra cfg _ extra _ hxnd]
    rw [hxnone]
    rw [aget_default_headers_none_token]
    simp [truthyOpt, withDefault]

/-- C10 witness: the token-less login environment applied to the
credentialed sample session clears the stored token and sends a retry
without any `AuthToken` header. -/
theorem claim_c10_witness :
    loginAuthToken sampleEnv401NoToken.login = none ∧
    aget (upstream_with_retry defaultConfig sampleState sampleEnv401NoToken "100" sampleUrl
        []).state.sessions "100" =
      some { sampleSession with cookies := extract_cookies sampleEnv401NoToken.login, auth_token := none } ∧
    (∃ h2, (upstream_with_retry defaultConfig sampleState sampleEnv401NoToken "100" sampleUrl
        []).dispatched = [(sampleUrl, []), (sampleUrl, h2)] ∧ aget h2 "AuthToken" = none) :=
  let h := claim_c10_token_cleared defaultConfig sampleState sampleEnv401NoToken "100" sampleUrl
    [] sampleSession sampleCreds (by decide) (by decide) (by decide) (by decide) (by decide)
    (by decide) (by decide) (by decide)
    (fun data hdata => by
      rw [show sampleEnv401NoToken.login.jsonBody = some [("status", "ok")] from rfl] at hdata
      cases hdata
      exact ⟨rfl, rfl, rfl⟩)
  ⟨h.1, h.2.1, h.2.2.1⟩

end P6
